import Mathlib

/-!
# Verification of the rInsta realtime-bridge core

Shallow embedding of the rInsta repository event normalization, topic
mapping, relay and automation-queue logic, together with proofs of the
frozen claims about it.

Sources embedded:
* `src/core/bot.js` — `InstagramBot.isNewMessageById`, realtime handler guard.
* `src/unnamed/part_001` — `FollowersRealtimeModule.processFollowQueue`.
* `src/unnamed/part_005` — `TelegramBridge.getOrCreateTopic`,
  `saveChatMapping`, `sendSimpleMessage`, `verifyTopicExists`,
  `handleInstagramMessage` (filter + dispatch), `handleTelegramMessage`
  (filter + dispatch), `findInstagramThreadIdByTopic`.

JavaScript `Map`s are embedded as association lists, `Set`s of message ids
as insertion-ordered lists, and the external Telegram/Instagram API calls
as explicit oracle arguments (`Except`/`Option` results).  The JavaScript
single-threaded cooperative scheduling makes the synchronous prefix of each
function atomic; suspension points (`await`) are where our step functions
cut the code into separate transitions.
-/

/-! ## Association-list embedding of JavaScript `Map` -/

/-- Lookup in an association list (`Map.get` / `Map.has`). -/
def alookup {K V : Type} [BEq K] : List (K × V) → K → Option V
  | [], _ => none
  | p :: t, k => if p.1 == k then some p.2 else alookup t k

/-- Remove every binding of a key (`Map.delete`). -/
def aerase {K V : Type} [BEq K] : List (K × V) → K → List (K × V)
  | [], _ => []
  | p :: t, k => if p.1 == k then aerase t k else p :: aerase t k

/-- Overwrite the binding of a key (`Map.set`). -/
def ainsert {K V : Type} [BEq K] (l : List (K × V)) (k : K) (v : V) :
    List (K × V) :=
  aerase l k ++ [(k, v)]

theorem alookup_append {K V : Type} [BEq K] (l₁ l₂ : List (K × V)) (k : K) :
    alookup (l₁ ++ l₂) k =
      match alookup l₁ k with
      | some v => some v
      | none => alookup l₂ k := by
  induction l₁ with
  | nil => simp [alookup]
  | cons p t ih =>
    by_cases h : (p.1 == k) = true
    · simp [alookup, h]
    · simp [alookup, h, ih]

theorem alookup_aerase_self {K V : Type} [BEq K] (l : List (K × V)) (k : K) :
    alookup (aerase l k) k = none := by
  induction l with
  | nil => simp [aerase, alookup]
  | cons p t ih =>
    by_cases h : (p.1 == k) = true
    · simpa [aerase, h] using ih
    · simpa [aerase, alookup, h] using ih

theorem alookup_aerase_ne {K V : Type} [BEq K] [LawfulBEq K]
    (l : List (K × V)) (k k' : K) (h : k' ≠ k) :
    alookup (aerase l k) k' = alookup l k' := by
  induction l with
  | nil => simp [aerase]
  | cons p t ih =>
    by_cases hp : (p.1 == k) = true
    · have hpk : p.1 = k := by exact eq_of_beq hp
      have : (p.1 == k') = false := by
        apply beq_eq_false_iff_ne.mpr
        rw [hpk]
        exact fun hkk => h hkk.symm
      simp [aerase, alookup, hp, this, ih]
    · by_cases hq : (p.1 == k') = true
      · simp [aerase, alookup, hp, hq]
      · simp [aerase, alookup, hp, hq, ih]

theorem alookup_ainsert_self {K V : Type} [BEq K] [LawfulBEq K]
    (l : List (K × V)) (k : K) (v : V) :
    alookup (ainsert l k v) k = some v := by
  rw [ainsert, alookup_append, alookup_aerase_self]
  simp [alookup]

theorem alookup_ainsert_ne {K V : Type} [BEq K] [LawfulBEq K]
    (l : List (K × V)) (k k' : K) (v : V) (h : k' ≠ k) :
    alookup (ainsert l k v) k' = alookup l k' := by
  rw [ainsert, alookup_append, alookup_aerase_ne l k k' h]
  cases hl : alookup l k' with
  | some w => simp
  | none =>
    have : (k == k') = false := by
      apply beq_eq_false_iff_ne.mpr
      exact fun hkk => h hkk.symm
    simp [alookup, this]

/-! ## JavaScript string primitives

The code uses `toLowerCase`, `toUpperCase`, `trim`, `startsWith` and
`includes`.  They are embedded as structurally recursive functions over
the character list of a `String`, so a witness can evaluate them on
concrete inputs. -/

/-- JavaScript `String.prototype.toLowerCase`. -/
def jsToLower (s : String) : String := ⟨s.data.map Char.toLower⟩

/-- JavaScript `String.prototype.toUpperCase`. -/
def jsToUpper (s : String) : String := ⟨s.data.map Char.toUpper⟩

/-- JavaScript `String.prototype.trim`: strip leading and trailing
whitespace. -/
def jsTrim (s : String) : String :=
  ⟨((s.data.dropWhile Char.isWhitespace).reverse.dropWhile
      Char.isWhitespace).reverse⟩

/-- JavaScript `String.prototype.startsWith`. -/
def jsStartsWith (s pre : String) : Bool := pre.data.isPrefixOf s.data

/-- Substring search underlying `String.prototype.includes`. -/
def jsIncludesAux (pat : List Char) : List Char → Bool
  | [] => pat.isPrefixOf []
  | c :: t => pat.isPrefixOf (c :: t) || jsIncludesAux pat t

/-- JavaScript `String.prototype.includes`. -/
def jsIncludes (s pat : String) : Bool := jsIncludesAux pat.data s.data

/-! ## Event normalizer dedup window — `src/core/bot.js` lines 176-191

`InstagramBot` keeps `processedMessageIds` (a JS `Set`, iteration in
insertion order, so the "first" element is the oldest) and
`maxProcessedMessageIds = 1000`.  The window is embedded as an
insertion-ordered list, oldest first. -/

structure DedupState where
  processedMessageIds : List String
  maxProcessedMessageIds : Nat
deriving Repr, DecidableEq

/-- JavaScript truthiness of the `messageId` argument: `undefined`/`null`
(`none`) and the empty string are falsy. -/
def idTruthy : Option String → Bool
  | none => false
  | some s => !(s == "")

/-- Embedding of `InstagramBot.isNewMessageById` (`src/core/bot.js` 176-191):
returns `false` for a falsy id or an id already in the window; otherwise
adds the id, evicts the oldest entry if the window now exceeds its
capacity, and returns `true`. -/
def isNewMessageById (s : DedupState) (messageId : Option String) :
    Bool × DedupState :=
  match messageId with
  | none => (false, s)
  | some m =>
    if m == "" then (false, s)
    else if s.processedMessageIds.contains m then (false, s)
    else
      let ids := s.processedMessageIds ++ [m]
      let ids :=
        if s.maxProcessedMessageIds < ids.length then ids.tail else ids
      (true, { s with processedMessageIds := ids })

/-- The realtime `message` handler guard
(`src/core/bot.js` 137-146): `if (!data.message || !this.isNewMessageById(data.message.item_id)) return;`.
The message fragment of the payload carries an optional `item_id`. -/
structure RealtimeMessageFragment where
  item_id : Option String
deriving Repr, DecidableEq

/-- Whether the realtime handler proceeds to `handleMessage`, and the
dedup state afterwards. -/
def realtimeMessageAccepted (s : DedupState)
    (message : Option RealtimeMessageFragment) : Bool × DedupState :=
  match message with
  | none => (false, s)
  | some msg => isNewMessageById s msg.item_id

/-! ## Telegram bridge state — `src/unnamed/part_005`

`TelegramBridge` keeps `chatMappings : Map<instagramThreadId, telegramTopicId>`,
`profilePicCache : Map<instagramThreadId, url>`,
`creatingTopics : Map<instagramThreadId, Promise<topicId|null>>`,
`topicVerificationCache : Map<telegramTopicId, bool>`, and a MongoDB
collection of persisted chat records (`type` field `chat`).

Instagram thread ids are strings (the code calls
`instagramThreadId.substring(0, 10)`); Telegram topic ids
(`topic.message_thread_id`) are numbers.  In-flight creation promises are
embedded as `Nat` tickets; awaiting a promise becomes resolving a ticket
against the settle outcome.  Counters `createForumTopicCalls` /
`getChatCalls` are ghost fields counting outbound Telegram API calls. -/

structure BridgeState where
  telegramChatIdConfigured : Bool
  chatMappings : List (String × Nat)
  profilePicCache : List (String × String)
  creatingTopics : List (String × Nat)
  topicVerificationCache : List (Nat × Bool)
  dbChats : List (String × Nat)
  nextTicket : Nat
  createForumTopicCalls : Nat
  getChatCalls : Nat
deriving Repr, DecidableEq

/-- A Telegram API error, as the code inspects it:
`error.response?.body?.error_code`, `error.response?.body?.description`
and `error.message`. -/
structure TgError where
  error_code : Option Nat
  description : Option String
  message : String
deriving Repr, DecidableEq

/-- Embedding of `TelegramBridge.saveChatMapping` (`part_005` 119-153): upserts the
persisted chat record, updates the in-memory mapping, caches the avatar
url when given one.  The source line
`this.topicVerificationCache.delete(instagramThreadId)` (148) passes
the *string* thread id to a cache keyed by *numeric* topic ids, so under
JavaScript `Map` SameValueZero key equality it never removes anything;
the embedding types the cache by topic id and the delete is the
corresponding no-op. -/
def saveChatMapping (s : BridgeState) (instagramThreadId : String)
    (telegramTopicId : Nat) (profilePicUrl : Option String) : BridgeState :=
  { s with
    dbChats := ainsert s.dbChats instagramThreadId telegramTopicId
    chatMappings := ainsert s.chatMappings instagramThreadId telegramTopicId
    profilePicCache :=
      match profilePicUrl with
      | some url => ainsert s.profilePicCache instagramThreadId url
      | none => s.profilePicCache }

/-- What one call to `getOrCreateTopic` does before any suspension:
either it finds an existing mapping, or it joins an in-flight creation
(identified by its ticket), or it starts a new creation and registers it
in `creatingTopics` (`part_005` 200-268; the synchronous prefix of the
async IIFE plus `this.creatingTopics.set` on line 266 runs before any
other event handler can interleave). -/
inductive EntryResult where
  | existing (topicId : Nat)
  | joined (ticket : Nat)
  | started (ticket : Nat)
deriving Repr, DecidableEq

/-- The synchronous entry of `TelegramBridge.getOrCreateTopic`
(`part_005` 200-208, 266): mapping hit → return it; in-flight hit →
await that promise; otherwise register a fresh creation ticket. -/
def getOrCreateTopicEntry (s : BridgeState) (instagramThreadId : String) :
    EntryResult × BridgeState :=
  match alookup s.chatMappings instagramThreadId with
  | some topicId => (.existing topicId, s)
  | none =>
    match alookup s.creatingTopics instagramThreadId with
    | some ticket => (.joined ticket, s)
    | none =>
      let ticket := s.nextTicket
      (.started ticket,
        { s with
          creatingTopics := ainsert s.creatingTopics instagramThreadId ticket
          nextTicket := ticket + 1 })

/-- The body of the creation promise in `getOrCreateTopic`
(`part_005` 210-264) once it resumes: if the destination chat id is not
configured it returns `null` *before* the `try`/`finally`, so the
in-flight entry is not removed (unreachable in practice: the bridge only
handles messages when `enabled`, which requires a configured chat id).
Otherwise `createForumTopic` is invoked exactly once; `apiResult` is its
outcome (`some topicId` on success, `none` when it throws, landing in the
`catch`).  On success `saveChatMapping` persists the mapping before the
welcome message; the `finally` removes the `creatingTopics` entry on both
outcomes.  The topic-name computation and welcome message (217-231,
255) only affect display text and the user-mapping store, not the
observables of any claim. -/
def settleCreation (s : BridgeState) (instagramThreadId : String)
    (apiResult : Option Nat) (profilePicUrl : Option String) :
    Option Nat × BridgeState :=
  if !s.telegramChatIdConfigured then
    (none, s)
  else
    let s := { s with createForumTopicCalls := s.createForumTopicCalls + 1 }
    match apiResult with
    | some topicId =>
      let s := saveChatMapping s instagramThreadId topicId profilePicUrl
      (some topicId,
        { s with creatingTopics := aerase s.creatingTopics instagramThreadId })
    | none =>
      (none,
        { s with creatingTopics := aerase s.creatingTopics instagramThreadId })

/-- Run `n` logically-concurrent entries to `getOrCreateTopic` for the
same thread id, each starting before the creation settles. -/
def runEntries (s : BridgeState) (instagramThreadId : String) :
    Nat → List EntryResult × BridgeState
  | 0 => ([], s)
  | n + 1 =>
    let (r, s₁) := getOrCreateTopicEntry s instagramThreadId
    let (rs, s₂) := runEntries s₁ instagramThreadId n
    (r :: rs, s₂)

/-- The value a caller finally receives: an existing mapping directly,
or — for callers that started or joined the in-flight creation — the
settled result of that creation promise. -/
def resolveEntry (apiResult : Option Nat) : EntryResult → Option Nat
  | .existing topicId => some topicId
  | .joined _ => apiResult
  | .started _ => apiResult

/-- Runs `n` first-contact calls racing on one unmapped conversation, then the
single in-flight creation settling with `apiResult`. -/
def runConcurrentFirstContact (s : BridgeState) (instagramThreadId : String)
    (n : Nat) (apiResult : Option Nat) : List (Option Nat) × BridgeState :=
  let (rs, s₁) := runEntries s instagramThreadId n
  let (_, s₂) := settleCreation s₁ instagramThreadId apiResult none
  (rs.map (resolveEntry apiResult), s₂)

/-- Embedding of `TelegramBridge.verifyTopicExists` (`part_005` 516-533): cache hit is
returned without calling Telegram; otherwise `getChat` is called
(`getChatResult` oracle): success caches and returns `true`; an error
with `error_code` 400 or a message containing `chat not found`
caches and returns `false`; any other error returns `true` without
caching. -/
def verifyTopicExists (s : BridgeState) (topicId : Nat)
    (getChatResult : Except TgError Unit) : Bool × BridgeState :=
  match alookup s.topicVerificationCache topicId with
  | some cached => (cached, s)
  | none =>
    let s := { s with getChatCalls := s.getChatCalls + 1 }
    match getChatResult with
    | .ok _ =>
      (true,
        { s with
          topicVerificationCache := ainsert s.topicVerificationCache topicId true })
    | .error e =>
      if e.error_code == some 400 || jsIncludes e.message "chat not found" then
        (false,
          { s with
            topicVerificationCache := ainsert s.topicVerificationCache topicId false })
      else
        (true, s)

/-- The classification `verifyTopicExists` applies to a `getChat` error
(`part_005` 526): explicit not-found / deactivated responses. -/
def isTopicMissingError (e : TgError) : Bool :=
  e.error_code == some 400 || jsIncludes e.message "chat not found"

/-- The invalidation performed when a topic is reported missing
(`part_005` 491-493 and 506-508): remove the in-memory mapping and the
cached avatar and delete the persisted record.  The verification cache is
not touched here. -/
def invalidateMapping (s : BridgeState) (instagramThreadId : String) :
    BridgeState :=
  { s with
    chatMappings := aerase s.chatMappings instagramThreadId
    profilePicCache := aerase s.profilePicCache instagramThreadId
    dbChats := aerase s.dbChats instagramThreadId }

/-- JavaScript expression `error.response?.body?.description || error.message` (`part_005` 503). -/
def errorDesc (e : TgError) : String :=
  e.description.getD e.message

/-- The classification `sendSimpleMessage` applies to a send error
(`part_005` 504). -/
def isThreadMissingDesc (desc : String) : Bool :=
  jsIncludes desc "message thread not found" ||
    jsIncludes desc "Bad Request: group chat was deactivated"

/-- Embedding of `TelegramBridge.sendSimpleMessage` (`part_005` 486-514): verify the
topic first; a negative verification invalidates the mapping and aborts
(returns `null`).  Otherwise `sendMessage` is attempted (`sendResult`
oracle, `some message_id` embedded as `.ok`): a thread-missing /
chat-deactivated error also invalidates; any other error just returns
`null`. -/
def sendSimpleMessage (s : BridgeState) (topicId : Nat) (text : String)
    (instagramThreadId : String) (getChatResult : Except TgError Unit)
    (sendResult : Except TgError Nat) : Option Nat × BridgeState :=
  let (topicExists, s₁) := verifyTopicExists s topicId getChatResult
  if !topicExists then
    (none, invalidateMapping s₁ instagramThreadId)
  else
    match sendResult with
    | .ok messageId => (some messageId, s₁)
    | .error e =>
      if isThreadMissingDesc (errorDesc e) then
        (none, invalidateMapping s₁ instagramThreadId)
      else
        (none, s₁)

/-! ## Automation queue — `src/unnamed/part_001`

`FollowersRealtimeModule` keeps `followQueue` (FIFO array),
`isProcessingQueue`, `followCount` and `followResetTime`
(constructor lines 17-20).  A `setInterval` tick (lines 93-98) calls
`processFollowQueue` when the queue is non-empty.  Timestamps are `Nat`
milliseconds; `followsDispatched` is a ghost counter of
`instagramClient.followUser` invocations. -/

structure QueueItem where
  userId : Nat
  username : String
  timestamp : Nat
deriving Repr, DecidableEq

structure FollowState where
  followQueue : List QueueItem
  isProcessingQueue : Bool
  followCount : Nat
  followResetTime : Nat
  followsDispatched : Nat
deriving Repr, DecidableEq

/-- Embedding of `FollowersRealtimeModule.processFollowQueue` (`part_001` 476-511) as a
state transformer for one tick at time `now`.  `maxFollowsPerHour` is
`config.followers.maxFollowsPerHour`; `success` is the outcome of the
`followUser` call.  The guard returns unchanged if already draining or
the queue is empty; the hourly counter and window reset only when
`now > followResetTime`; a tick whose quota check fails returns before
dequeuing; otherwise exactly one item is shifted off the queue,
`followUser` is dispatched for it, and the counter increments only on
success.  (`isProcessingQueue` is set in the body and cleared in the
`finally`, so it is `false` again when the tick completes; the
randomized delay only stretches time.) -/
def processFollowQueue (maxFollowsPerHour : Nat) (now : Nat)
    (success : Bool) (s : FollowState) : FollowState :=
  if s.isProcessingQueue || s.followQueue.isEmpty then s
  else
    let s :=
      if s.followResetTime < now then
        { s with followCount := 0, followResetTime := now + 3600000 }
      else s
    if maxFollowsPerHour ≤ s.followCount then s
    else
      match s.followQueue with
      | [] => s
      | item :: rest =>
        let s := { s with
          followQueue := rest
          followsDispatched := s.followsDispatched + 1 }
        if success then { s with followCount := s.followCount + 1 } else s

/-! ## Relay dispatch — `src/unnamed/part_005`

`handleInstagramMessage` (373-428) after user bookkeeping and topic
resolution: filter check against the lowercased, trimmed body, then
dispatch by message type.  The embedding captures the single outbound
send the dispatch performs (or `none` when the filter short-circuits). -/

/-- The canonical Instagram message fields the relay dispatch reads
(built in `src/core/bot.js` `handleMessage`, 215-228).  A `message.text`
of `undefined` and of the empty string behave identically everywhere here, so the body
is a plain string with `""` for absent. -/
structure IgMessage where
  threadId : String
  senderId : Nat
  text : String
  type : String
  hasMedia : Bool
deriving Repr, DecidableEq

/-- An outbound send to the Telegram topic. -/
inductive TgSend where
  | text (topicId : Nat) (body : String)
  | media (topicId : Nat)
deriving Repr, DecidableEq

/-- The filter-and-dispatch tail of `TelegramBridge.handleInstagramMessage`
(`part_005` 401-423), given the resolved topic id: returns the send the
message produces, or `none` when a blocked prefix suppresses it.
Types `text`/`link` send the body; messages with media go through
`handleInstagramMedia`; `like` sends a heart; every other type falls back
to `[TYPE]` plus the body when present. -/
def relayInstagramMessage (filters : List String) (topicId : Nat)
    (message : IgMessage) : Option TgSend :=
  let textLower := jsTrim (jsToLower message.text)
  if filters.any (fun word => jsStartsWith textLower word) then
    none
  else if message.type == "text" || message.type == "link" then
    some (.text topicId message.text)
  else if message.hasMedia then
    some (.media topicId)
  else if message.type == "like" then
    some (.text topicId "❤️")
  else
    some (.text topicId
      ("[" ++ jsToUpper message.type ++ "]" ++
        (if message.text == "" then "" else "\n" ++ message.text)))

/-- Embedding of `TelegramBridge.findInstagramThreadIdByTopic` (`part_005` 723-730):
reverse lookup of the first mapping pointing at the topic. -/
def findInstagramThreadIdByTopic (chatMappings : List (String × Nat))
    (topicId : Nat) : Option String :=
  (chatMappings.find? (fun p => p.2 == topicId)).map (fun p => p.1)

/-- The Telegram-side message fields `handleTelegramMessage` reads:
optional text and which attachment kinds are present. -/
structure TgMessage where
  message_thread_id : Nat
  text : Option String
  hasPhoto : Bool
  hasVideo : Bool
  hasDocument : Bool
  hasVoice : Bool
  hasSticker : Bool
deriving Repr, DecidableEq

/-- An outbound action toward Instagram in the reverse relay. -/
inductive IgSend where
  | text (threadId : String) (body : String)
  | media (threadId : String) (kind : String)
deriving Repr, DecidableEq

/-- JavaScript truthiness of `msg.text`. -/
def tgTextTruthy : Option String → Bool
  | none => false
  | some t => !(t == "")

/-- The routing part of `TelegramBridge.handleTelegramMessage`
(`part_005` 572-627): reverse-map the topic (unknown topic → `❓`
reaction, no send), filter the trimmed, lowercased text (match → `🚫`
reaction, no send), then dispatch: truthy text is sent as Instagram text;
otherwise the present attachment kind goes through `handleTelegramMedia`;
with nothing recognized a bracketed fallback text is sent. -/
def relayTelegramMessage (chatMappings : List (String × Nat))
    (filters : List String) (msg : TgMessage) : Option IgSend :=
  match findInstagramThreadIdByTopic chatMappings msg.message_thread_id with
  | none => none
  | some instagramThreadId =>
    let originalText := (msg.text.map jsTrim).getD ""
    let textLower := jsToLower originalText
    if filters.any (fun word => jsStartsWith textLower word) then
      none
    else if tgTextTruthy msg.text then
      some (.text instagramThreadId originalText)
    else if msg.hasPhoto then some (.media instagramThreadId "photo")
    else if msg.hasVideo then some (.media instagramThreadId "video")
    else if msg.hasDocument then some (.media instagramThreadId "document")
    else if msg.hasVoice then some (.media instagramThreadId "voice")
    else if msg.hasSticker then some (.media instagramThreadId "sticker")
    else some (.text instagramThreadId "[Unsupported Telegram Media Received]")

/-! ## Concrete scenario states used by witnesses and counterexamples -/

/-- A bridge with nothing mapped, cached or in flight, and the
destination chat id configured (the bridge only handles messages when
`enabled`, which requires a configured chat id). -/
def freshBridgeState : BridgeState :=
  { telegramChatIdConfigured := true
    chatMappings := []
    profilePicCache := []
    creatingTopics := []
    topicVerificationCache := []
    dbChats := []
    nextTicket := 0
    createForumTopicCalls := 0
    getChatCalls := 0 }

/-- Five follow-back items enqueued simultaneously. -/
def c3Items : List QueueItem :=
  [⟨1, "u1", 0⟩, ⟨2, "u2", 0⟩, ⟨3, "u3", 0⟩, ⟨4, "u4", 0⟩, ⟨5, "u5", 0⟩]

/-- The rate-limit scenario of the spec: `maxFollowsPerHour = 2`, five
items queued at time 0, hourly window ending at 3600000, nothing yet
dispatched. -/
def c3State0 : FollowState :=
  { followQueue := c3Items
    isProcessingQueue := false
    followCount := 0
    followResetTime := 3600000
    followsDispatched := 0 }

/-- The scenario state after one successful in-window tick. -/
def c3State1 : FollowState :=
  { followQueue := c3Items.drop 1
    isProcessingQueue := false
    followCount := 1
    followResetTime := 3600000
    followsDispatched := 1 }

/-- The scenario state after two successful in-window ticks: the quota
is exhausted and three items remain queued. -/
def c3State2 : FollowState :=
  { followQueue := c3Items.drop 2
    isProcessingQueue := false
    followCount := 2
    followResetTime := 3600000
    followsDispatched := 2 }

/-- A module whose hourly quota (`maxFollowsPerHour = 2`) is already
exhausted while one follow-back item is queued. -/
def c8State : FollowState :=
  { followQueue := [⟨9, "pending_user", 0⟩]
    isProcessingQueue := false
    followCount := 2
    followResetTime := 3600000
    followsDispatched := 2 }

/-! ## Claims -/

/-- Claim C2: presenting the same message identifier to the dedup check
twice yields exactly one accepted and one suppressed result, in either
arrival order.  For a genuine (non-empty) identifier not yet in the
window, the first call returns `true` and inserts it; any call made
while the identifier remains in the window returns `false` and leaves
the state untouched (so the outcome is one `true` and one `false`
whichever call comes first). -/
theorem c2_dedup_idempotent (s : DedupState) (m : String)
    (hmax : 1 ≤ s.maxProcessedMessageIds) (hm : m ≠ "")
    (hfresh : s.processedMessageIds.contains m = false) :
    (isNewMessageById s (some m)).1 = true ∧
    (isNewMessageById s (some m)).2.processedMessageIds.contains m = true ∧
    ∀ s' : DedupState, s'.processedMessageIds.contains m = true →
      isNewMessageById s' (some m) = (false, s') := by
  have hbeq : (m == "") = false := beq_eq_false_iff_ne.mpr hm
  have hfresh' : m ∉ s.processedMessageIds := by simpa using hfresh
  refine ⟨?_, ?_, ?_⟩
  · simp [isNewMessageById, hbeq, hfresh']
  · have hsnd : (isNewMessageById s (some m)).2.processedMessageIds =
        (if s.maxProcessedMessageIds < (s.processedMessageIds ++ [m]).length
         then (s.processedMessageIds ++ [m]).tail
         else s.processedMessageIds ++ [m]) := by
      simp [isNewMessageById, hbeq, hfresh']
    rw [hsnd]
    by_cases hlen :
        s.maxProcessedMessageIds < (s.processedMessageIds ++ [m]).length
    · rw [if_pos hlen]
      cases hq : s.processedMessageIds with
      | nil =>
        exfalso
        rw [hq] at hlen
        simp at hlen
        omega
      | cons a t => simp
    · rw [if_neg hlen]
      simp
  · intro s' hs'
    have hs'' : m ∈ s'.processedMessageIds := by simpa using hs'
    simp [isNewMessageById, hbeq, hs'']

/-- Witness for C2 at a concrete input: a fresh window of capacity 1000
and the identifier `mid_1`. -/
theorem c2_dedup_idempotent_witness :
    (1 ≤ (1000 : Nat)) ∧ ("mid_1" : String) ≠ "" ∧
    (([] : List String).contains "mid_1" = false) ∧
    ((isNewMessageById ⟨[], 1000⟩ (some "mid_1")).1 = true ∧
     (isNewMessageById ⟨[], 1000⟩
        (some "mid_1")).2.processedMessageIds.contains "mid_1" = true ∧
     ∀ s' : DedupState, s'.processedMessageIds.contains "mid_1" = true →
       isNewMessageById s' (some "mid_1") = (false, s')) :=
  ⟨by decide, by decide, by decide,
    c2_dedup_idempotent ⟨[], 1000⟩ "mid_1" (by decide) (by decide)
      (by decide)⟩

/-- Claim C10: a realtime event whose message payload lacks an item
identifier (a falsy `messageId`: absent or the empty string) is rejected
by `isNewMessageById` with the dedup window left unchanged, so the
realtime handler suppresses the event instead of treating it as new. -/
theorem c10_missing_id_suppressed (s : DedupState) :
    isNewMessageById s none = (false, s) ∧
    isNewMessageById s (some "") = (false, s) ∧
    realtimeMessageAccepted s (some ⟨none⟩) = (false, s) ∧
    realtimeMessageAccepted s (some ⟨some ""⟩) = (false, s) ∧
    realtimeMessageAccepted s none = (false, s) := by
  refine ⟨rfl, ?_, ?_, ?_, rfl⟩
  · simp [isNewMessageById]
  · simp [realtimeMessageAccepted, isNewMessageById]
  · simp [realtimeMessageAccepted, isNewMessageById]

/-- Helper for C1: once a creation is registered in `creatingTopics` and
no mapping exists, every further entry joins that in-flight creation
without touching the state. -/
theorem runEntries_joined (s : BridgeState) (tid : String) (tk : Nat)
    (m : Nat) (h1 : alookup s.chatMappings tid = none)
    (h2 : alookup s.creatingTopics tid = some tk) :
    runEntries s tid m = (List.replicate m (.joined tk), s) := by
  induction m with
  | zero => rfl
  | succ n ih =>
    simp [runEntries, getOrCreateTopicEntry, h1, h2, ih,
      List.replicate_succ]

/-- Claim C1: for `n ≥ 1` logically-concurrent first-contact calls to
`getOrCreateTopic` on the same previously-unmapped conversation, each
later call starting before the first creation settles: exactly one
creation runs (`createForumTopic` invoked once), all `n` callers resolve
to the same settled result, and the in-flight registry entry for that
conversation is removed once creation settles, on success
(`apiResult = some topicId`) and on failure (`none`) alike. -/
theorem c1_single_flight (s : BridgeState) (tid : String) (n : Nat)
    (apiResult : Option Nat)
    (hunmapped : alookup s.chatMappings tid = none)
    (hnoflight : alookup s.creatingTopics tid = none)
    (hconf : s.telegramChatIdConfigured = true) (hn : 1 ≤ n) :
    (runConcurrentFirstContact s tid n apiResult).1.length = n ∧
    (∀ r ∈ (runConcurrentFirstContact s tid n apiResult).1,
      r = apiResult) ∧
    (runConcurrentFirstContact s tid n apiResult).2.createForumTopicCalls =
      s.createForumTopicCalls + 1 ∧
    alookup (runConcurrentFirstContact s tid n apiResult).2.creatingTopics
      tid = none := by
  obtain ⟨m, rfl⟩ : ∃ m, n = m + 1 := ⟨n - 1, by omega⟩
  set s₁ : BridgeState :=
    { s with
      creatingTopics := ainsert s.creatingTopics tid s.nextTicket
      nextTicket := s.nextTicket + 1 } with hs₁
  have hentry : getOrCreateTopicEntry s tid = (.started s.nextTicket, s₁) := by
    simp [getOrCreateTopicEntry, hunmapped, hnoflight, hs₁]
  have h1 : alookup s₁.chatMappings tid = none := hunmapped
  have h2 : alookup s₁.creatingTopics tid = some s.nextTicket := by
    simp [hs₁, alookup_ainsert_self]
  have hrun : runEntries s tid (m + 1) =
      (.started s.nextTicket :: List.replicate m (.joined s.nextTicket),
        s₁) := by
    simp [runEntries, hentry, runEntries_joined s₁ tid s.nextTicket m h1 h2]
  have hresults : (runConcurrentFirstContact s tid (m + 1) apiResult).1 =
      (EntryResult.started s.nextTicket ::
        List.replicate m (.joined s.nextTicket)).map
        (resolveEntry apiResult) := by
    simp [runConcurrentFirstContact, hrun]
  have hstate : (runConcurrentFirstContact s tid (m + 1) apiResult).2 =
      (settleCreation s₁ tid apiResult none).2 := by
    simp [runConcurrentFirstContact, hrun]
  refine ⟨?_, ?_, ?_, ?_⟩
  · simp [hresults]
  · intro r hr
    rw [hresults] at hr
    simp only [List.map_cons, List.mem_cons, List.mem_map,
      List.mem_replicate] at hr
    rcases hr with h | ⟨a, ⟨_, ha⟩, hra⟩
    · simpa [resolveEntry] using h
    · rw [← hra, ha]
      rfl
  · rw [hstate]
    cases apiResult with
    | none => simp [settleCreation, hconf, hs₁]
    | some t => simp [settleCreation, hconf, saveChatMapping, hs₁]
  · rw [hstate]
    cases apiResult with
    | none => simp [settleCreation, hconf, hs₁, alookup_aerase_self]
    | some t =>
      simp [settleCreation, hconf, saveChatMapping, hs₁,
        alookup_aerase_self]

/-- Witness for C1 at a concrete input: three racing first-contact calls
on a fresh bridge, the creation settling successfully with topic 42. -/
theorem c1_single_flight_witness :
    (alookup freshBridgeState.chatMappings "t1" = none) ∧
    (alookup freshBridgeState.creatingTopics "t1" = none) ∧
    (freshBridgeState.telegramChatIdConfigured = true) ∧ (1 ≤ 3) ∧
    ((runConcurrentFirstContact freshBridgeState "t1" 3 (some 42)).1.length
        = 3 ∧
     (∀ r ∈ (runConcurrentFirstContact freshBridgeState "t1" 3
          (some 42)).1, r = some 42) ∧
     (runConcurrentFirstContact freshBridgeState "t1" 3
        (some 42)).2.createForumTopicCalls =
       freshBridgeState.createForumTopicCalls + 1 ∧
     alookup (runConcurrentFirstContact freshBridgeState "t1" 3
        (some 42)).2.creatingTopics "t1" = none) :=
  ⟨by decide, by decide, by decide, by decide,
    c1_single_flight freshBridgeState "t1" 3 (some 42) (by decide)
      (by decide) (by decide) (by decide)⟩

/-- Claim C7: `verifyTopicExists` returns `false` exactly when the
destination answered the fresh query with an explicit not-found /
chat-deactivated error (`error_code 400` or a message containing
`chat not found`, the classification `isTopicMissingError` taken from
the source); that negative answer is cached; any other error yields
`true` (fail open); and a cached verification result is returned
without re-querying the destination (state unchanged, `getChat` not
called). -/
theorem c7_verify_classification (s : BridgeState) (topicId : Nat)
    (getChatResult : Except TgError Unit) :
    (∀ cached, alookup s.topicVerificationCache topicId = some cached →
       verifyTopicExists s topicId getChatResult = (cached, s)) ∧
    (alookup s.topicVerificationCache topicId = none →
       (((verifyTopicExists s topicId getChatResult).1 = false) ↔
          (∃ e, getChatResult = .error e ∧ isTopicMissingError e = true)) ∧
       (verifyTopicExists s topicId getChatResult).2.getChatCalls =
         s.getChatCalls + 1 ∧
       ((verifyTopicExists s topicId getChatResult).1 = false →
          alookup (verifyTopicExists s topicId
            getChatResult).2.topicVerificationCache topicId = some false)) := by
  constructor
  · intro cached hc
    simp [verifyTopicExists, hc]
  · intro hnone
    cases getChatResult with
    | ok u => simp [verifyTopicExists, hnone]
    | error e =>
      by_cases hcl : (e.error_code == some 400 ||
          jsIncludes e.message "chat not found") = true
      · refine ⟨?_, ?_, ?_⟩
        · simp only [verifyTopicExists, hnone, hcl]
          constructor
          · intro _
            exact ⟨e, rfl, by simpa [isTopicMissingError] using hcl⟩
          · intro _
            rfl
        · simp [verifyTopicExists, hnone, hcl]
        · intro _
          simp [verifyTopicExists, hnone, hcl, alookup_ainsert_self]
      · have hcl' : (e.error_code == some 400 ||
            jsIncludes e.message "chat not found") = false := by
          simpa using hcl
        refine ⟨?_, ?_, ?_⟩
        · simp only [verifyTopicExists, hnone, hcl']
          constructor
          · intro h
            simp at h
          · rintro ⟨e', he', hmiss⟩
            cases he'
            rw [isTopicMissingError] at hmiss
            rw [hcl'] at hmiss
            cases hmiss
        · simp [verifyTopicExists, hnone, hcl']
        · intro h
          simp only [verifyTopicExists, hnone, hcl'] at h
          cases h
  
/-- Witness for C7 at concrete inputs: a cache miss answered with a 400
error is classified as absent, and that result is cached. -/
theorem c7_verify_classification_witness :
    (alookup freshBridgeState.topicVerificationCache 7 = none) ∧
    (verifyTopicExists freshBridgeState 7
        (.error ⟨some 400, none, "ETELEGRAM: 400 Bad Request: chat not found"⟩)).1
      = false ∧
    alookup (verifyTopicExists freshBridgeState 7
        (.error ⟨some 400, none,
          "ETELEGRAM: 400 Bad Request: chat not found"⟩)).2.topicVerificationCache
      7 = some false := by
  have hmiss : alookup freshBridgeState.topicVerificationCache 7 = none := by
    decide
  have h := (c7_verify_classification freshBridgeState 7
    (.error ⟨some 400, none,
      "ETELEGRAM: 400 Bad Request: chat not found"⟩)).2 hmiss
  have hfalse := h.1.mpr
    ⟨⟨some 400, none, "ETELEGRAM: 400 Bad Request: chat not found"⟩, rfl,
      by decide⟩
  exact ⟨hmiss, hfalse, h.2.2 hfalse⟩

/-- Counterexample to claim C6 as stated: a bridge whose verification
cache already records topic 5 as missing.  The send attempt for thread
`t1` takes the invalidation path, which removes the in-memory mapping
and the persisted record — but the verification-cache entry for the
missing topic is NOT removed (the claimed third removal does not
happen; the only cache delete in the code, `saveChatMapping` line 148,
keys by thread id into a topic-id-keyed map). -/
theorem c6_counterexample :
    (alookup ((sendSimpleMessage
        { freshBridgeState with
            chatMappings := [("t1", 5)]
            profilePicCache := [("t1", "http://pic")]
            dbChats := [("t1", 5)]
            topicVerificationCache := [(5, false)] }
        5 "hello" "t1" (.ok ()) (.ok 1)).2.chatMappings) "t1" = none) ∧
    (alookup ((sendSimpleMessage
        { freshBridgeState with
            chatMappings := [("t1", 5)]
            profilePicCache := [("t1", "http://pic")]
            dbChats := [("t1", 5)]
            topicVerificationCache := [(5, false)] }
        5 "hello" "t1" (.ok ()) (.ok 1)).2.dbChats) "t1" = none) ∧
    ¬ (alookup ((sendSimpleMessage
        { freshBridgeState with
            chatMappings := [("t1", 5)]
            profilePicCache := [("t1", "http://pic")]
            dbChats := [("t1", 5)]
            topicVerificationCache := [(5, false)] }
        5 "hello" "t1" (.ok ()) (.ok 1)).2.topicVerificationCache) 5
        = none) := by
  decide

/-- Claim C6 amended: whenever a topic is reported missing — by a
negative verification or by a send failure classified as
thread-missing/chat-deactivated — the invalidation removes the
in-memory conversation-to-topic mapping, the cached avatar url and the
persisted mapping record, but it does NOT remove the verification-cache
entry for the missing topic: the cache is exactly what the verification
step left (in particular, after a negative verification it still holds
`false` for that topic). -/
theorem c6_invalidation_scope (s : BridgeState) (topicId : Nat)
    (text tid : String) (getChatResult : Except TgError Unit)
    (sendResult : Except TgError Nat)
    (hpath : (verifyTopicExists s topicId getChatResult).1 = false ∨
      ((verifyTopicExists s topicId getChatResult).1 = true ∧
       ∃ e, sendResult = .error e ∧
         isThreadMissingDesc (errorDesc e) = true)) :
    alookup (sendSimpleMessage s topicId text tid getChatResult
      sendResult).2.chatMappings tid = none ∧
    alookup (sendSimpleMessage s topicId text tid getChatResult
      sendResult).2.profilePicCache tid = none ∧
    alookup (sendSimpleMessage s topicId text tid getChatResult
      sendResult).2.dbChats tid = none ∧
    (sendSimpleMessage s topicId text tid getChatResult
      sendResult).2.topicVerificationCache =
      (verifyTopicExists s topicId getChatResult).2.topicVerificationCache
    := by
  rcases hveq : verifyTopicExists s topicId getChatResult with ⟨b, s₁⟩
  rw [hveq] at hpath
  simp only at hpath
  cases b with
  | false =>
    simp [sendSimpleMessage, hveq, invalidateMapping, alookup_aerase_self]
  | true =>
    rcases hpath with hfalse | ⟨_, e, hsend, hdesc⟩
    · cases hfalse
    · subst hsend
      simp [sendSimpleMessage, hveq, hdesc, invalidateMapping,
        alookup_aerase_self]

/-- Witness for the amended C6 at a concrete input: cached-missing topic
5, thread `t1`. -/
theorem c6_invalidation_scope_witness :
    ((verifyTopicExists
        { freshBridgeState with
            chatMappings := [("t1", 5)]
            profilePicCache := [("t1", "http://pic")]
            dbChats := [("t1", 5)]
            topicVerificationCache := [(5, false)] } 5 (.ok ())).1 = false) ∧
    (alookup (sendSimpleMessage
        { freshBridgeState with
            chatMappings := [("t1", 5)]
            profilePicCache := [("t1", "http://pic")]
            dbChats := [("t1", 5)]
            topicVerificationCache := [(5, false)] }
        5 "hello" "t1" (.ok ()) (.ok 1)).2.chatMappings "t1" = none ∧
     alookup (sendSimpleMessage
        { freshBridgeState with
            chatMappings := [("t1", 5)]
            profilePicCache := [("t1", "http://pic")]
            dbChats := [("t1", 5)]
            topicVerificationCache := [(5, false)] }
        5 "hello" "t1" (.ok ()) (.ok 1)).2.profilePicCache "t1" = none ∧
     alookup (sendSimpleMessage
        { freshBridgeState with
            chatMappings := [("t1", 5)]
            profilePicCache := [("t1", "http://pic")]
            dbChats := [("t1", 5)]
            topicVerificationCache := [(5, false)] }
        5 "hello" "t1" (.ok ()) (.ok 1)).2.dbChats "t1" = none ∧
     (sendSimpleMessage
        { freshBridgeState with
            chatMappings := [("t1", 5)]
            profilePicCache := [("t1", "http://pic")]
            dbChats := [("t1", 5)]
            topicVerificationCache := [(5, false)] }
        5 "hello" "t1" (.ok ()) (.ok 1)).2.topicVerificationCache =
       (verifyTopicExists
          { freshBridgeState with
              chatMappings := [("t1", 5)]
              profilePicCache := [("t1", "http://pic")]
              dbChats := [("t1", 5)]
              topicVerificationCache := [(5, false)] }
          5 (.ok ())).2.topicVerificationCache) :=
  ⟨by decide,
    c6_invalidation_scope
      { freshBridgeState with
          chatMappings := [("t1", 5)]
          profilePicCache := [("t1", "http://pic")]
          dbChats := [("t1", 5)]
          topicVerificationCache := [(5, false)] }
      5 "hello" "t1" (.ok ()) (.ok 1) (Or.inl (by decide))⟩

/-- Claim C5: with a mapping `tid → topicId` whose destination topic
verification reports it missing, the relay send is aborted (`null`
returned) and the mapping invalidated (removed from memory and from the
persistent store); the next inbound message for that conversation then
finds no mapping and no in-flight creation, so a fresh
`getOrCreateTopic` call starts a new creation, and settling it with the
newly created topic id updates both the in-memory mapping and the
persistent store to the new topic. -/
theorem c5_stale_topic_self_heal (s : BridgeState) (tid : String)
    (topicId newTopicId : Nat) (text : String)
    (getChatResult : Except TgError Unit) (sendResult : Except TgError Nat)
    (hmap : alookup s.chatMappings tid = some topicId)
    (hverify : (verifyTopicExists s topicId getChatResult).1 = false)
    (hnoflight : alookup s.creatingTopics tid = none)
    (hconf : s.telegramChatIdConfigured = true) :
    (sendSimpleMessage s topicId text tid getChatResult sendResult).1 =
      none ∧
    alookup (sendSimpleMessage s topicId text tid getChatResult
      sendResult).2.chatMappings tid = none ∧
    alookup (sendSimpleMessage s topicId text tid getChatResult
      sendResult).2.dbChats tid = none ∧
    ((getOrCreateTopicEntry (sendSimpleMessage s topicId text tid
        getChatResult sendResult).2 tid).1 =
      .started (sendSimpleMessage s topicId text tid getChatResult
        sendResult).2.nextTicket) ∧
    ((settleCreation (getOrCreateTopicEntry (sendSimpleMessage s topicId
        text tid getChatResult sendResult).2 tid).2 tid (some newTopicId)
        none).1 = some newTopicId) ∧
    alookup (settleCreation (getOrCreateTopicEntry (sendSimpleMessage s
        topicId text tid getChatResult sendResult).2 tid).2 tid
        (some newTopicId) none).2.chatMappings tid = some newTopicId ∧
    alookup (settleCreation (getOrCreateTopicEntry (sendSimpleMessage s
        topicId text tid getChatResult sendResult).2 tid).2 tid
        (some newTopicId) none).2.dbChats tid = some newTopicId := by
  rcases hveq : verifyTopicExists s topicId getChatResult with ⟨b, s₁⟩
  rw [hveq] at hverify
  simp only at hverify
  subst hverify
  have hs₁fields : s₁.creatingTopics = s.creatingTopics ∧
      s₁.telegramChatIdConfigured = s.telegramChatIdConfigured := by
    have : s₁ = (verifyTopicExists s topicId getChatResult).2 := by
      rw [hveq]
    rw [this]
    rw [verifyTopicExists]
    cases halo : alookup s.topicVerificationCache topicId with
    | some cached => exact ⟨rfl, rfl⟩
    | none =>
      cases getChatResult with
      | ok u => exact ⟨rfl, rfl⟩
      | error e =>
        by_cases hcl : (e.error_code == some 400 ||
            jsIncludes e.message "chat not found") = true
        · simp [hcl]
        · simp [hcl]
  have hsend : sendSimpleMessage s topicId text tid getChatResult
      sendResult = (none, invalidateMapping s₁ tid) := by
    simp [sendSimpleMessage, hveq]
  rw [hsend]
  have hmapgone : alookup (invalidateMapping s₁ tid).chatMappings tid
      = none := by
    simp [invalidateMapping, alookup_aerase_self]
  have hdbgone : alookup (invalidateMapping s₁ tid).dbChats tid = none := by
    simp [invalidateMapping, alookup_aerase_self]
  have hflight : alookup (invalidateMapping s₁ tid).creatingTopics tid
      = none := by
    rw [invalidateMapping]
    simp only
    rw [hs₁fields.1]
    exact hnoflight
  have hentry : getOrCreateTopicEntry (invalidateMapping s₁ tid) tid =
      (.started (invalidateMapping s₁ tid).nextTicket,
        { invalidateMapping s₁ tid with
          creatingTopics := ainsert (invalidateMapping s₁ tid).creatingTopics
            tid (invalidateMapping s₁ tid).nextTicket
          nextTicket := (invalidateMapping s₁ tid).nextTicket + 1 }) := by
    rw [getOrCreateTopicEntry, hmapgone, hflight]
  have hconf' : (invalidateMapping s₁ tid).telegramChatIdConfigured
      = true := by
    rw [invalidateMapping]
    simp only
    rw [hs₁fields.2]
    exact hconf
  refine ⟨rfl, hmapgone, hdbgone, ?_, ?_, ?_, ?_⟩
  · rw [hentry]
  · rw [hentry]
    simp [settleCreation, hconf']
  · rw [hentry]
    simp [settleCreation, hconf', saveChatMapping, alookup_ainsert_self]
  · rw [hentry]
    simp [settleCreation, hconf', saveChatMapping, alookup_ainsert_self]

/-- Witness for C5 at a concrete input: mapping `t1 → 5`, verification
answered with a chat-not-found error, recreation settling with new
topic 11. -/
theorem c5_stale_topic_self_heal_witness :
    (alookup ({ freshBridgeState with
        chatMappings := [("t1", 5)]
        dbChats := [("t1", 5)] } : BridgeState).chatMappings "t1"
      = some 5) ∧
    ((verifyTopicExists { freshBridgeState with
        chatMappings := [("t1", 5)]
        dbChats := [("t1", 5)] } 5
        (.error ⟨some 400, none, "Bad Request: chat not found"⟩)).1
      = false) ∧
    ((sendSimpleMessage { freshBridgeState with
        chatMappings := [("t1", 5)]
        dbChats := [("t1", 5)] } 5 "hi" "t1"
        (.error ⟨some 400, none, "Bad Request: chat not found"⟩)
        (.ok 1)).1 = none) ∧
    (alookup (settleCreation (getOrCreateTopicEntry (sendSimpleMessage
        { freshBridgeState with
            chatMappings := [("t1", 5)]
            dbChats := [("t1", 5)] } 5 "hi" "t1"
        (.error ⟨some 400, none, "Bad Request: chat not found"⟩)
        (.ok 1)).2 "t1").2 "t1" (some 11) none).2.chatMappings "t1"
      = some 11) ∧
    (alookup (settleCreation (getOrCreateTopicEntry (sendSimpleMessage
        { freshBridgeState with
            chatMappings := [("t1", 5)]
            dbChats := [("t1", 5)] } 5 "hi" "t1"
        (.error ⟨some 400, none, "Bad Request: chat not found"⟩)
        (.ok 1)).2 "t1").2 "t1" (some 11) none).2.dbChats "t1"
      = some 11) := by
  have h := c5_stale_topic_self_heal
    { freshBridgeState with
        chatMappings := [("t1", 5)]
        dbChats := [("t1", 5)] } "t1" 5 11 "hi"
    (.error ⟨some 400, none, "Bad Request: chat not found"⟩) (.ok 1)
    (by decide) (by decide) (by decide) (by decide)
  exact ⟨by decide, by decide, h.1, h.2.2.2.2.2.1, h.2.2.2.2.2.2⟩

/-- Helper: every string starts with itself. -/
theorem jsStartsWith_self (w : String) : jsStartsWith w w = true := by
  have : ∀ l : List Char, l.isPrefixOf l = true := by
    intro l
    induction l with
    | nil => rfl
    | cons c t ih => simp [List.isPrefixOf, ih]
  simp [jsStartsWith, this]

/-- Claim C4: a message whose body, after lowercasing and trimming, is
exactly a blocked filter word produces zero relay sends in both
directions (the match is done on the case-normalized body); a message on
whose normalized body no filter word matches as a prefix — in
particular one containing a blocked word only as a non-prefix
substring — is still relayed in both directions. -/
theorem c4_filter_suppression (filters : List String) :
    (∀ (topicId : Nat) (m : IgMessage) (word : String), word ∈ filters →
       jsTrim (jsToLower m.text) = word →
       relayInstagramMessage filters topicId m = none) ∧
    (∀ (chatMappings : List (String × Nat)) (msg : TgMessage)
       (word b : String), word ∈ filters → msg.text = some b →
       jsToLower (jsTrim b) = word →
       relayTelegramMessage chatMappings filters msg = none) ∧
    (∀ (topicId : Nat) (m : IgMessage),
       (∀ word ∈ filters,
         jsStartsWith (jsTrim (jsToLower m.text)) word = false) →
       m.type = "text" →
       relayInstagramMessage filters topicId m =
         some (.text topicId m.text)) ∧
    (∀ (chatMappings : List (String × Nat)) (msg : TgMessage)
       (tid b : String),
       findInstagramThreadIdByTopic chatMappings msg.message_thread_id =
         some tid →
       msg.text = some b → b ≠ "" →
       (∀ word ∈ filters,
         jsStartsWith (jsToLower (jsTrim b)) word = false) →
       relayTelegramMessage chatMappings filters msg =
         some (.text tid (jsTrim b))) := by
  refine ⟨?_, ?_, ?_, ?_⟩
  · intro topicId m word hw hbody
    have hany : filters.any
        (fun word => jsStartsWith (jsTrim (jsToLower m.text)) word)
        = true := by
      apply List.any_eq_true.mpr
      refine ⟨word, hw, ?_⟩
      rw [hbody]
      exact jsStartsWith_self word
    simp [relayInstagramMessage, hany]
  · intro chatMappings msg word b hw htext hbody
    have hany : filters.any
        (fun word =>
          jsStartsWith (jsToLower ((msg.text.map jsTrim).getD "")) word)
        = true := by
      apply List.any_eq_true.mpr
      refine ⟨word, hw, ?_⟩
      rw [htext]
      show jsStartsWith (jsToLower (jsTrim b)) word = true
      rw [hbody]
      exact jsStartsWith_self word
    rw [relayTelegramMessage]
    cases hfind : findInstagramThreadIdByTopic chatMappings
        msg.message_thread_id with
    | none => rfl
    | some tid =>
      simp only [hany]
      rfl
  · intro topicId m hnone htype
    have hany : filters.any
        (fun word => jsStartsWith (jsTrim (jsToLower m.text)) word)
        = false := by
      simp only [List.any_eq_false]
      intro w hw
      rw [hnone w hw]
      simp
    simp [relayInstagramMessage, hany, htype]
  · intro chatMappings msg tid b hfind htext hb hnone
    have hany : filters.any
        (fun word =>
          jsStartsWith (jsToLower ((Option.map jsTrim (some b)).getD ""))
            word) = false := by
      simp only [List.any_eq_false]
      intro w hw
      show ¬ jsStartsWith (jsToLower (jsTrim b)) w = true
      rw [hnone w hw]
      simp
    have htruthy : tgTextTruthy (some b) = true := by
      simp [tgTextTruthy, hb]
    rw [relayTelegramMessage, hfind]
    simp only [htext] at hany ⊢
    rw [hany]
    simp only [Bool.false_eq_true, if_false, htruthy, if_true]
    rfl

/-- Witness for C4 at concrete inputs: filter word `spam`; the body
` SPAM ` (exact match after normalization) is suppressed in both
directions, while `I got spam mail` (blocked word only as a non-prefix
substring) is relayed in both directions. -/
theorem c4_filter_suppression_witness :
    (relayInstagramMessage ["spam"] 7
        ⟨"t1", 1, " SPAM ", "text", false⟩ = none) ∧
    (relayTelegramMessage [("t1", 7)] ["spam"]
        ⟨7, some " SPAM ", false, false, false, false, false⟩ = none) ∧
    (relayInstagramMessage ["spam"] 7
        ⟨"t1", 1, "I got spam mail", "text", false⟩ =
      some (.text 7 "I got spam mail")) ∧
    (relayTelegramMessage [("t1", 7)] ["spam"]
        ⟨7, some "I got spam mail", false, false, false, false, false⟩ =
      some (.text "t1" "I got spam mail")) := by
  have h := c4_filter_suppression ["spam"]
  refine ⟨?_, ?_, ?_, ?_⟩
  · exact h.1 7 ⟨"t1", 1, " SPAM ", "text", false⟩ "spam" (by decide)
      (by decide)
  · exact h.2.1 [("t1", 7)]
      ⟨7, some " SPAM ", false, false, false, false, false⟩ "spam"
      " SPAM " (by decide) rfl (by decide)
  · exact h.2.2.1 7 ⟨"t1", 1, "I got spam mail", "text", false⟩
      (by decide) rfl
  · have := h.2.2.2 [("t1", 7)]
      ⟨7, some "I got spam mail", false, false, false, false, false⟩
      "t1" "I got spam mail" (by decide) rfl (by decide) (by decide)
    simpa using this

/-- Claim C9: a canonical message of an unrecognized kind (not `text`,
`link` or `like`, and carrying no media) that passes the filter is
relayed as a bracketed type-tag text message — `[KIND]` followed by the
body when one is present — to the mapped topic, rather than being
dropped or throwing. -/
theorem c9_fallback_dispatch (filters : List String) (topicId : Nat)
    (m : IgMessage)
    (hfilter : ∀ word ∈ filters,
      jsStartsWith (jsTrim (jsToLower m.text)) word = false)
    (htype : m.type ≠ "text") (hlink : m.type ≠ "link")
    (hlike : m.type ≠ "like") (hmedia : m.hasMedia = false) :
    relayInstagramMessage filters topicId m =
      some (.text topicId
        ("[" ++ jsToUpper m.type ++ "]" ++
          (if m.text == "" then "" else "\n" ++ m.text))) := by
  have hany : filters.any
      (fun word => jsStartsWith (jsTrim (jsToLower m.text)) word)
      = false := by
    simp only [List.any_eq_false]
    intro w hw
    rw [hfilter w hw]
    simp
  have ht : (m.type == "text") = false := beq_eq_false_iff_ne.mpr htype
  have hl : (m.type == "link") = false := beq_eq_false_iff_ne.mpr hlink
  have hk : (m.type == "like") = false := beq_eq_false_iff_ne.mpr hlike
  simp [relayInstagramMessage, hany, ht, hl, hk, hmedia]

/-- Witness for C9 at a concrete input: a `live_video_event` message
with a body, no filters. -/
theorem c9_fallback_dispatch_witness :
    ("live_video_event" : String) ≠ "text" ∧
    relayInstagramMessage [] 9
        ⟨"t1", 1, "going live", "live_video_event", false⟩ =
      some (.text 9 "[LIVE_VIDEO_EVENT]\ngoing live") := by
  constructor
  · decide
  · have h := c9_fallback_dispatch [] 9
      ⟨"t1", 1, "going live", "live_video_event", false⟩
      (by intro w hw; cases hw) (by decide) (by decide) (by decide) rfl
    rw [h]
    decide

/-- Helper for C3: folding ticks over a fixed point of the tick function
changes nothing. -/
theorem foldl_tick_fixed (f : FollowState → Nat → FollowState)
    (s : FollowState) (ts : List Nat) (h : ∀ t ∈ ts, f s t = s) :
    ts.foldl f s = s := by
  induction ts with
  | nil => rfl
  | cons t rest ih =>
    simp only [List.foldl_cons, h t (by simp)]
    exact ih (fun u hu => h u (by simp [hu]))

/-- Helper for C3: one successful in-window tick from the initial
scenario state. -/
theorem c3_tick_zero (t : Nat) (h : t ≤ 3600000) :
    processFollowQueue 2 t true c3State0 = c3State1 := by
  have hlt : ¬ (3600000 < t) := by omega
  simp [processFollowQueue, c3State0, c3State1, c3Items, hlt]

/-- Helper for C3: a second successful in-window tick exhausts the
quota. -/
theorem c3_tick_one (t : Nat) (h : t ≤ 3600000) :
    processFollowQueue 2 t true c3State1 = c3State2 := by
  have hlt : ¬ (3600000 < t) := by omega
  simp [processFollowQueue, c3State1, c3State2, c3Items, hlt]

/-- Helper for C3: once the quota is exhausted, an in-window tick is a
no-op. -/
theorem c3_tick_two (t : Nat) (h : t ≤ 3600000) :
    processFollowQueue 2 t true c3State2 = c3State2 := by
  have hlt : ¬ (3600000 < t) := by omega
  simp [processFollowQueue, c3State2, c3Items, hlt]

/-- Helper for C3: closed form of any number of in-window ticks from the
scenario start. -/
theorem c3_run (ts : List Nat) (h : ∀ t ∈ ts, t ≤ 3600000) :
    ts.foldl (fun s t => processFollowQueue 2 t true s) c3State0 =
      (if ts.length = 0 then c3State0
       else if ts.length = 1 then c3State1 else c3State2) := by
  match ts with
  | [] => rfl
  | [t] =>
    simp only [List.foldl_cons, List.foldl_nil, List.length_singleton]
    rw [c3_tick_zero t (h t (by simp))]
    rfl
  | t1 :: t2 :: rest =>
    simp only [List.foldl_cons, List.length_cons]
    rw [c3_tick_zero t1 (h t1 (by simp)),
      c3_tick_one t2 (h t2 (by simp))]
    rw [foldl_tick_fixed _ _ rest
      (fun u hu => c3_tick_two u (h u (by simp [hu])))]
    simp

/-- Claim C3: with `maxFollowsPerHour = 2` and five follow-back items
enqueued simultaneously, any number of successful queue ticks inside the
hourly window dispatches exactly `min k 2` follow actions (so exactly 2
once `k ≥ 2`), leaves `5 - min k 2` items queued, and never resets the
counter or the window (`followResetTime` stays put); the first tick
after the window elapses resets and dispatches a third follow.
In general at most one item is dequeued per tick, and a tick whose
quota check fails (quota reached, window not elapsed) dispatches
nothing and leaves the whole state unchanged. -/
theorem c3_rate_limit (ts : List Nat) (h : ∀ t ∈ ts, t ≤ 3600000)
    (img : Nat) (himg : 3600000 < img) :
    ((ts.foldl (fun s t => processFollowQueue 2 t true s)
        c3State0).followsDispatched = min ts.length 2) ∧
    ((ts.foldl (fun s t => processFollowQueue 2 t true s)
        c3State0).followQueue.length = 5 - min ts.length 2) ∧
    ((ts.foldl (fun s t => processFollowQueue 2 t true s)
        c3State0).followCount = min ts.length 2) ∧
    ((ts.foldl (fun s t => processFollowQueue 2 t true s)
        c3State0).followResetTime = 3600000) ∧
    (2 ≤ ts.length →
      (processFollowQueue 2 img true
        (ts.foldl (fun s t => processFollowQueue 2 t true s)
          c3State0)).followsDispatched = 3) ∧
    (∀ (s : FollowState) (t : Nat) (b : Bool) (maxF : Nat),
      s.followQueue.length ≤
        (processFollowQueue maxF t b s).followQueue.length + 1) ∧
    (∀ (s : FollowState) (t : Nat) (b : Bool) (maxF : Nat),
      t ≤ s.followResetTime → maxF ≤ s.followCount →
      processFollowQueue maxF t b s = s) := by
  have hrun := c3_run ts h
  have hq : ∀ s t b maxF, t ≤ s.followResetTime → maxF ≤ s.followCount →
      processFollowQueue maxF t b s = s := by
    intro s t b maxF hwin hcount
    rw [processFollowQueue]
    by_cases hguard : (s.isProcessingQueue || s.followQueue.isEmpty) = true
    · rw [if_pos hguard]
    · rw [if_neg hguard]
      have hreset : ¬ (s.followResetTime < t) := by omega
      rw [if_neg hreset]
      rw [if_pos hcount]
  refine ⟨?_, ?_, ?_, ?_, ?_, ?_, hq⟩
  · rw [hrun]
    match ts with
    | [] => rfl
    | [t] => rfl
    | t1 :: t2 :: rest => simp [c3State2, c3Items]
  · rw [hrun]
    match ts with
    | [] => rfl
    | [t] => rfl
    | t1 :: t2 :: rest => simp [c3State2, c3Items]
  · rw [hrun]
    match ts with
    | [] => rfl
    | [t] => rfl
    | t1 :: t2 :: rest => simp [c3State2, c3Items]
  · rw [hrun]
    match ts with
    | [] => rfl
    | [t] => rfl
    | t1 :: t2 :: rest => simp [c3State2, c3Items]
  · intro hlen
    rw [hrun]
    match ts, hlen with
    | t1 :: t2 :: rest, _ =>
      simp [processFollowQueue, c3State2, c3Items, himg]
  · intro s t b maxF
    rw [processFollowQueue]
    by_cases hguard : (s.isProcessingQueue || s.followQueue.isEmpty) = true
    · rw [if_pos hguard]
      omega
    · rw [if_neg hguard]
      by_cases hreset : s.followResetTime < t
      · rw [if_pos hreset]
        by_cases hcnt : maxF ≤ (0 : Nat)
        · simp only [if_pos hcnt]
          omega
        · simp only [if_neg hcnt]
          cases hqq : s.followQueue with
          | nil => simp
          | cons item rest =>
            cases b with
            | false => simp [hqq]
            | true => simp [hqq]
      · rw [if_neg hreset]
        by_cases hcnt : maxF ≤ s.followCount
        · simp only [if_pos hcnt]
          omega
        · simp only [if_neg hcnt]
          cases hqq : s.followQueue with
          | nil => simp
          | cons item rest =>
            cases b with
            | false => simp [hqq]
            | true => simp [hqq]

/-- Witness for C3 at a concrete input: three in-window ticks (only two
dispatch), then a tick after the window. -/
theorem c3_rate_limit_witness :
    (∀ t ∈ [10, 20, 30], t ≤ 3600000) ∧ (3600000 < 4000000) ∧
    (([10, 20, 30].foldl (fun s t => processFollowQueue 2 t true s)
        c3State0).followsDispatched = min 3 2 ∧
     ([10, 20, 30].foldl (fun s t => processFollowQueue 2 t true s)
        c3State0).followQueue.length = 5 - min 3 2 ∧
     (processFollowQueue 2 4000000 true
        ([10, 20, 30].foldl (fun s t => processFollowQueue 2 t true s)
          c3State0)).followsDispatched = 3) := by
  have h := c3_rate_limit [10, 20, 30] (by decide) 4000000 (by decide)
  exact ⟨by decide, by decide,
    by simpa using h.1,
    by simpa using h.2.1,
    h.2.2.2.2.1 (by decide)⟩

/-- Counterexample to claim C8 as stated: with the quota already
exhausted (`followCount = 2 = maxFollowsPerHour`) and one item queued,
an in-window tick returns the state unchanged — the quota check
(`part_001` line 486) runs *before* `followQueue.shift()` (line 494),
so the triggering item is NOT dequeued-and-lost: it is still the head
of the queue afterwards. -/
theorem c8_counterexample :
    processFollowQueue 2 100 true c8State = c8State ∧
    c8State.followQueue =
      [({ userId := 9, username := "pending_user", timestamp := 0 }
        : QueueItem)] ∧
    (processFollowQueue 2 100 true c8State).followQueue ≠ [] := by
  refine ⟨by decide, by decide, by decide⟩

/-- Claim C8 amended: if the hourly quota is already exhausted when a
queue tick runs inside the current window, the tick aborts *before*
dequeuing — the state, including the queue, is unchanged and nothing is
dispatched; the triggering item remains queued, and the first tick
after the window resets dequeues and dispatches it. -/
theorem c8_quota_keeps_item (s : FollowState) (t u : Nat) (b c : Bool)
    (maxF : Nat) (hwin : t ≤ s.followResetTime)
    (hquota : maxF ≤ s.followCount)
    (hproc : s.isProcessingQueue = false)
    (hqueue : s.followQueue ≠ [])
    (hreset : s.followResetTime < u) (hmax : 0 < maxF) :
    processFollowQueue maxF t b s = s ∧
    (processFollowQueue maxF u c s).followsDispatched =
      s.followsDispatched + 1 ∧
    (processFollowQueue maxF u c s).followQueue = s.followQueue.tail := by
  have hup : processFollowQueue maxF t b s = s := by
    rw [processFollowQueue]
    by_cases hguard : (s.isProcessingQueue || s.followQueue.isEmpty) = true
    · rw [if_pos hguard]
    · rw [if_neg hguard]
      have : ¬ (s.followResetTime < t) := by omega
      rw [if_neg this, if_pos hquota]
  have hguard : (s.isProcessingQueue || s.followQueue.isEmpty) = false := by
    rw [hproc]
    simp [List.isEmpty_iff, hqueue]
  have hnq : ¬ (maxF ≤ 0) := by omega
  refine ⟨hup, ?_, ?_⟩
  · rw [processFollowQueue, if_neg (by rw [hguard]; simp),
      if_pos hreset]
    simp only [if_neg hnq]
    cases hqq : s.followQueue with
    | nil => exact absurd hqq hqueue
    | cons item rest =>
      cases c with
      | false => simp [hqq]
      | true => simp [hqq]
  · rw [processFollowQueue, if_neg (by rw [hguard]; simp),
      if_pos hreset]
    simp only [if_neg hnq]
    cases hqq : s.followQueue with
    | nil => exact absurd hqq hqueue
    | cons item rest =>
      cases c with
      | false => simp [hqq]
      | true => simp [hqq]

/-- Witness for the amended C8 at a concrete input: the quota-exhausted
state, an in-window tick at time 100, then a tick at time 4000000 after
the window elapsed. -/
theorem c8_quota_keeps_item_witness :
    (100 ≤ c8State.followResetTime) ∧ (2 ≤ c8State.followCount) ∧
    (c8State.followQueue ≠ []) ∧ (c8State.followResetTime < 4000000) ∧
    (processFollowQueue 2 100 true c8State = c8State ∧
     (processFollowQueue 2 4000000 true c8State).followsDispatched =
       c8State.followsDispatched + 1 ∧
     (processFollowQueue 2 4000000 true c8State).followQueue =
       c8State.followQueue.tail) :=
  ⟨by decide, by decide, by decide, by decide,
    c8_quota_keeps_item c8State 100 4000000 true true 2 (by decide)
      (by decide) (by decide) (by decide) (by decide) (by decide)⟩
